import Mathlib

/-!
Verification development for the COGNESTIC2024 example-notebook corpus.

The repository is a set of nine Jupyter notebooks demonstrating the
MNE-Python / MNE-Connectivity libraries.  The notebooks contain no classes
and almost no functions of their own; the verifiable content is the glue
arithmetic they perform on library outputs (net Granger scores, residuals,
rank estimates, global connectivity averages), the control flow of the one
try/except cell, and corpus-level facts (which notebooks load datasets,
define functions, write files, or configure parallelism).  Arrays of floats
are embedded as rational-valued functions or lists; library calls whose
outputs the notebooks merely combine are abstracted as arbitrary functions
of their arguments.
-/

namespace Cognestic

/-- The nine source files of the repository, one constructor per notebook.
grangerCausality is src/unnamed/part_000 (multivariate Granger causality),
seedTimeFrequency is src/unnamed/part_001 (seed-based time-frequency
connectivity), coherencyComparison is src/unnamed/part_002 (comparison of
coherency-based methods), varModel is src/unnamed/part_003 (vector
autoregressive model), eventArrays is
src/EEGMEG1-preprocessing/1/4_20_event_arrays.ipynb, compareOverTimeTrials
is src/EEGMEG3-timefrequency/2/11_compare_connectivity_over_time_over_trial.ipynb,
inverseCoherence is 1_mne_inverse_coherence_epochs.ipynb, inverseSpectrum is
2_mne_inverse_connectivity_spectrum.ipynb, and envelopeCorrelation is
5_mne_inverse_envelope_correlation.ipynb. -/
inductive Notebook where
  | grangerCausality
  | seedTimeFrequency
  | coherencyComparison
  | varModel
  | eventArrays
  | compareOverTimeTrials
  | inverseCoherence
  | inverseSpectrum
  | envelopeCorrelation
deriving DecidableEq, Fintype

/-- Whether the notebook fetches and loads a sample dataset through one of
the external library dataset-download utilities, read off each notebook's
data-loading cells:
grangerCausality calls mne.datasets.fieldtrip_cmc.data_path();
seedTimeFrequency, eventArrays, compareOverTimeTrials, inverseCoherence and
inverseSpectrum call mne.datasets.sample.data_path() (eventArrays also
mne.datasets.testing.data_path()); varModel calls
mne.datasets.epilepsy_ecog.data_path(); envelopeCorrelation calls
mne.datasets.brainstorm.bst_resting.data_path().  coherencyComparison
(src/unnamed/part_002) loads no dataset at all: all of its analysis input is
produced by make_signals_in_freq_bands. -/
def loadsSampleDataset : Notebook → Bool
  | .grangerCausality => true
  | .seedTimeFrequency => true
  | .coherencyComparison => false
  | .varModel => true
  | .eventArrays => true
  | .compareOverTimeTrials => true
  | .inverseCoherence => true
  | .inverseSpectrum => true
  | .envelopeCorrelation => true

/-- Whether any of the notebook's analysis input is generated inside the
notebook rather than loaded from a dataset.  coherencyComparison simulates
all its data with make_signals_in_freq_bands (rng_seed 40, 42, 44);
compareOverTimeTrials simulates Case 1 with rng.random((5, 3, 2000)) and
Case 2 with phase-shifted sinusoids before loading the real sample EEG.  The
other seven notebooks analyse only loaded data. -/
def simulatesAnalysisInput : Notebook → Bool
  | .grangerCausality => false
  | .seedTimeFrequency => false
  | .coherencyComparison => true
  | .varModel => false
  | .eventArrays => false
  | .compareOverTimeTrials => true
  | .inverseCoherence => false
  | .inverseSpectrum => false
  | .envelopeCorrelation => false

/-- C2: every notebook loads a sample dataset fetched by the library's
dataset-download utilities before any analysis, and no notebook's analysis
input is generated in-notebook.  This is the claim as stated; it is refuted
below. -/
def everyNotebookLoadsDataset : Prop :=
  ∀ nb : Notebook, loadsSampleDataset nb = true ∧ simulatesAnalysisInput nb = false

instance : Decidable everyNotebookLoadsDataset := by
  unfold everyNotebookLoadsDataset
  infer_instance

/-- A filesystem path consumed by a notebook.  downloadRoot names the
dataset-download utility that produced the root (the argument of
mne.datasets.<dataset>.data_path()) together with the location relative to
that root; externalLiteral would be a path not derived from a download
utility (a hard-coded absolute path, say).  No notebook in the corpus uses
the second form. -/
inductive ConsumedPath where
  | downloadRoot (dataset : String) (relative : String)
  | externalLiteral (path : String)
deriving DecidableEq

/-- True when the path is rooted at a dataset fetched by the external
library's dataset-download utilities. -/
def ConsumedPath.fromDownloadUtility : ConsumedPath → Bool
  | .downloadRoot _ _ => true
  | .externalLiteral _ => false

/-- The filesystem paths each notebook consumes, read off its cells.  All
are joins under a data_path() root (for varModel, a BIDSPath under the
downloaded epilepsy_ecog root).  coherencyComparison consumes no path. -/
def consumedPaths : Notebook → List ConsumedPath
  | .grangerCausality => [.downloadRoot "fieldtrip_cmc" "SubjectCMC.ds"]
  | .seedTimeFrequency =>
      [.downloadRoot "sample" "MEG/sample/sample_audvis_filt-0-40_raw.fif",
       .downloadRoot "sample" "MEG/sample/sample_audvis_filt-0-40_raw-eve.fif"]
  | .coherencyComparison => []
  | .varModel =>
      [.downloadRoot "epilepsy_ecog"
        "BIDSPath sub-pt1 ses-presurgery task-ictal ieeg .vhdr"]
  | .eventArrays =>
      [.downloadRoot "sample" "MEG/sample/sample_audvis_raw.fif",
       .downloadRoot "testing" "EEGLAB/test_raw.set"]
  | .compareOverTimeTrials =>
      [.downloadRoot "sample" "MEG/sample/sample_audvis_filt-0-40_raw.fif",
       .downloadRoot "sample" "MEG/sample/sample_audvis_filt-0-40_raw-eve.fif"]
  | .inverseCoherence =>
      [.downloadRoot "sample" "MEG/sample/sample_audvis-meg-oct-6-meg-inv.fif",
       .downloadRoot "sample" "MEG/sample/sample_audvis_filt-0-40_raw.fif",
       .downloadRoot "sample" "MEG/sample/sample_audvis_filt-0-40_raw-eve.fif",
       .downloadRoot "sample" "MEG/sample/labels/Aud-lh.label",
       .downloadRoot "sample" "subjects"]
  | .inverseSpectrum =>
      [.downloadRoot "sample" "MEG/sample/sample_audvis-meg-oct-6-meg-inv.fif",
       .downloadRoot "sample" "MEG/sample/sample_audvis_filt-0-40_raw.fif",
       .downloadRoot "sample" "MEG/sample/sample_audvis_filt-0-40_raw-eve.fif",
       .downloadRoot "sample" "MEG/sample/labels/Aud-lh.label",
       .downloadRoot "sample" "MEG/sample/labels/Aud-rh.label",
       .downloadRoot "sample" "MEG/sample/labels/Vis-lh.label",
       .downloadRoot "sample" "MEG/sample/labels/Vis-rh.label"]
  | .envelopeCorrelation =>
      [.downloadRoot "brainstorm.bst_resting" "subjects",
       .downloadRoot "brainstorm.bst_resting" "MEG/bst_resting/bst_resting-trans.fif",
       .downloadRoot "brainstorm.bst_resting" "subjects/bst_resting/bem/bst_resting-oct-6-src.fif",
       .downloadRoot "brainstorm.bst_resting" "subjects/bst_resting/bem/bst_resting-5120-bem-sol.fif",
       .downloadRoot "brainstorm.bst_resting" "MEG/bst_resting/subj002_spontaneous_20111102_01_AUX.ds"]

/-- Whether notebook code itself writes to the filesystem.  No cell of any
notebook calls a save, export, to_csv, or open-for-write routine; the only
outputs are matplotlib or brain-viewer figures and printed arrays, so the
flag is false for each notebook. -/
def writesToFilesystem : Notebook → Bool
  | _ => false

/-- A parallelism-related construct appearing in notebook code.
nJobsArgument records an n_jobs keyword argument passed to an external
library call; threadCreation and processCreation would record a notebook
creating a thread or process itself.  Only the first form occurs. -/
inductive ParallelismConfig where
  | nJobsArgument (callee : String) (value : ℕ)
  | threadCreation (api : String)
  | processCreation (api : String)
deriving DecidableEq

/-- True when the construct is an n_jobs argument to a library call. -/
def ParallelismConfig.isNJobsArgument : ParallelismConfig → Bool
  | .nJobsArgument _ _ => true
  | _ => false

/-- Every parallelism-related construct in each notebook.  Three notebooks
pass n_jobs=1 to spectral_connectivity_epochs; no notebook imports or uses
threading, multiprocessing, or concurrent.futures, and none spawns a
process. -/
def parallelismConfigs : Notebook → List ParallelismConfig
  | .seedTimeFrequency => [.nJobsArgument "spectral_connectivity_epochs" 1]
  | .inverseCoherence => [.nJobsArgument "spectral_connectivity_epochs" 1]
  | .inverseSpectrum => [.nJobsArgument "spectral_connectivity_epochs" 1]
  | _ => []

/-- The number of class statements in each notebook: none contains one. -/
def classDefinitions : Notebook → ℕ
  | _ => 0

/-- The functions defined by notebook code across the whole corpus:
plot_connectivity_circle in coherencyComparison, plot_con_matrix in
compareOverTimeTrials, and bp_gen, plot_corr, plot_degree in
envelopeCorrelation.  No other def statement appears in any notebook. -/
inductive NotebookFunction where
  | plotConnectivityCircle
  | plotConMatrix
  | bpGen
  | plotCorr
  | plotDegree
deriving DecidableEq, Fintype

/-- The notebook each function is defined in. -/
def NotebookFunction.definedIn : NotebookFunction → Notebook
  | .plotConnectivityCircle => .coherencyComparison
  | .plotConMatrix => .compareOverTimeTrials
  | .bpGen => .envelopeCorrelation
  | .plotCorr => .envelopeCorrelation
  | .plotDegree => .envelopeCorrelation

/-- Whether the function is a plotting helper, read off its body.
plot_connectivity_circle draws an annotated unit circle; plot_con_matrix
draws connectivity matrices with imshow; plot_corr draws a correlation
matrix; plot_degree plots a degree source estimate on a brain.  bp_gen is
not a plotting helper: it is a generator that band-pass filters label time
courses (mne.filter.filter_data(ts, sfreq, 14, 30)) on the fly, preparing
the data fed to envelope_correlation. -/
def NotebookFunction.isPlottingHelper : NotebookFunction → Bool
  | .plotConnectivityCircle => true
  | .plotConMatrix => true
  | .bpGen => false
  | .plotCorr => true
  | .plotDegree => true

/-- C7 as stated: no notebook defines a class and every function defined in
notebook code is a plotting helper.  Refuted below through bp_gen. -/
def onlyPlottingHelpersDefined : Prop :=
  (∀ nb : Notebook, classDefinitions nb = 0) ∧
  ∀ f : NotebookFunction, f.isPlottingHelper = true

instance : Decidable onlyPlottingHelpersDefined := by
  unfold onlyPlottingHelpersDefined
  infer_instance

/-- The outcome of an external library call as seen by notebook code: a
normal return, a raised RuntimeError, or some other raised exception. -/
inductive CallResult where
  | ok
  | runtimeError (msg : String)
  | otherException (msg : String)
deriving DecidableEq

/-- Modelled from the spec: the body of spectral_connectivity_epochs is
external-library code, absent from this repository.  Per the spec, the
error handling shown demonstrates a RuntimeError raised by the external
library's own rank-deficiency check, and per the notebook's narration the
call with rank=None fails on these epochs because the data (of rank 5) is
rank deficient relative to the 20 seed and 22 target channels, making the
autocovariance sequence singular.  With an explicit rank the calls in the
notebook succeed. -/
def spectralConnectivityEpochsGC (rankArg : Option ℕ)
    (dataRank nSeeds nTargets : ℕ) : CallResult :=
  match rankArg with
  | some _ => .ok
  | none =>
      if dataRank < nSeeds ∨ dataRank < nTargets then
        .runtimeError "the autocovariance matrix is singular"
      else .ok

/-- The try/except cell of the Granger-causality notebook, as a function of
the library call outcome.  The try body runs the call and then prints
Success!; the except clause names exactly RuntimeError and prints the
caught error; any other exception propagates out of the cell.  The result
is the list of printed strings paired with the propagated exception, if
any. -/
def grangerTryExceptCell (res : CallResult) : List String × Option String :=
  match res with
  | .ok => (["Success!"], none)
  | .runtimeError msg => (["\nCaught the following error:\n" ++ msg], none)
  | .otherException msg => ([], some msg)

/-- The residuals of the VAR-model notebook: an epochs-by-channels-by-times
array of differences, residuals = epochs.get_data() - predicted_data, with
arrays embedded as rational-valued functions of (epoch, channel, time). -/
def residuals (data predicted : ℕ → ℕ → ℕ → ℚ) : ℕ → ℕ → ℕ → ℚ :=
  fun e c t => data e c t - predicted e c t

/-- One stored element of an mne.Annotations object: a complete triplet of
onset (seconds), duration (seconds) and description. -/
structure Annot where
  onset : ℚ
  duration : ℚ
  description : String
deriving DecidableEq

/-- Pointwise zip of equally long onset, duration and description lists
into stored triplets. -/
def zipAnnots : List ℚ → List ℚ → List String → List Annot
  | o :: os, d :: ds, s :: ss => ⟨o, d, s⟩ :: zipAnnots os ds ss
  | _, _, _ => []

/-- The mne.Annotations constructor as used by the notebook: it accepts
onset, duration and description sequences and stores one complete triplet
per index; on sequences of unequal length the library rejects the input,
embedded here as none. -/
def mkAnnots (onset duration : List ℚ) (description : List String) :
    Option (List Annot) :=
  if onset.length = duration.length ∧ duration.length = description.length then
    some (zipAnnots onset duration description)
  else none

/-- The onset argument of the one mne.Annotations construction in the
event-parsing notebook. -/
def remOnset : List ℚ := [5, 41]

/-- The duration argument of that construction. -/
def remDuration : List ℚ := [16, 11]

/-- The description argument of that construction, written as a
two-element replication exactly as in the source. -/
def remDescription : List String := List.replicate 2 "REM"

/-- The rem_annot object built in the event-parsing notebook. -/
def rem_annot : Option (List Annot) := mkAnnots remOnset remDuration remDescription

/-- An indices argument of spectral_connectivity_epochs: a pair of lists of
channel-index groups, one for the seeds and one for the targets. -/
def Indices : Type := List (List ℕ) × List (List ℕ)

/-- The indices_ab value of the Granger-causality notebook: group a seeds
group b. -/
def indices_ab (a b : List ℕ) : Indices := ([a], [b])

/-- The indices_ba value of the Granger-causality notebook: group b seeds
group a. -/
def indices_ba (a b : List ℕ) : Indices := ([b], [a])

/-- The net Granger score of the Granger-causality notebook,
net_gc = forward.get_data() - reverse.get_data(), per frequency.  The
library outputs gc_ab and gc_ba are abstracted as one spectrum-valued
function of the indices argument, so exchanging the indices exchanges the
two terms. -/
def net_gc (gcData : Indices → ℕ → ℚ) (fwd rev : Indices) (f : ℕ) : ℚ :=
  gcData fwd f - gcData rev f

/-- The final TRGC score of the Granger-causality notebook,
trgc = net_gc - net_gc_tr, per frequency, where gcData and gcTrData
abstract the library outputs for methods gc and gc_tr. -/
def trgcScore (gcData gcTrData : Indices → ℕ → ℚ) (fwd rev : Indices) (f : ℕ) : ℚ :=
  net_gc gcData fwd rev f - net_gc gcTrData fwd rev f

/-- The conservative rank estimate of the Granger-causality notebook,
rank = np.count_nonzero(s >= s[0] * 1e-4), with the singular-value array
embedded as a list of rationals and the closeness factor 1e-4 as 1/10000. -/
def rank (s : List ℚ) : ℕ :=
  (s.filter (fun x => s.headD 0 * (1 / 10000) ≤ x)).length

/-- The connection count of the over-time/over-trials notebook,
n_connections = (n_channels**2 - n_channels) / 2, a Python float division
embedded over the rationals. -/
def n_connections (n_channels : ℕ) : ℚ :=
  ((n_channels : ℚ) ^ 2 - (n_channels : ℚ)) / 2

/-- The global theta connectivity time course of the over-time/over-trials
notebook: the raveled per-connection array (one time course per row) is
summed over its rows (axis 0) and divided by n_connections, per
timepoint. -/
def global_con_epochs (raveled : List (ℕ → ℚ)) (n_channels : ℕ) (t : ℕ) : ℚ :=
  (raveled.map (fun row => row t)).sum / n_connections n_channels

/-- C1: calling spectral_connectivity_epochs with rank=None on the
rank-deficient epochs (data rank 5 against 20 seed and 22 target channels)
raises a RuntimeError from the library's rank-deficiency check; the
notebook's try/except catches exactly RuntimeError and prints the caught
error, so the cell completes without propagating an exception and the
string Success! is never printed (while a non-RuntimeError exception would
propagate out of the cell). -/
theorem granger_rank_none_error_caught :
    spectralConnectivityEpochsGC none 5 20 22 =
      CallResult.runtimeError "the autocovariance matrix is singular" ∧
    (grangerTryExceptCell (spectralConnectivityEpochsGC none 5 20 22)).2 = none ∧
    "Success!" ∉ (grangerTryExceptCell (spectralConnectivityEpochsGC none 5 20 22)).1 ∧
    (grangerTryExceptCell (spectralConnectivityEpochsGC none 5 20 22)).1 =
      ["\nCaught the following error:\nthe autocovariance matrix is singular"] ∧
    ∀ msg : String,
      (grangerTryExceptCell (CallResult.otherException msg)).2 = some msg := by
  refine ⟨by decide, by decide, by decide, by decide, fun msg => rfl⟩

/-- C2 counterexample: the coherency-methods comparison notebook
(src/unnamed/part_002) loads no sample dataset at all, refuting the claim
that every notebook loads a sample dataset before any analysis and that no
notebook generates its analysis input in-notebook. -/
theorem not_every_notebook_loads_dataset :
    loadsSampleDataset Notebook.coherencyComparison = false ∧
    ¬ everyNotebookLoadsDataset := by
  decide

/-- C2 amended: every notebook except the coherency-methods comparison
notebook loads a sample dataset fetched by the external library's
dataset-download utilities, and exactly two notebooks, the coherency
comparison (entirely) and the over-time/over-trials comparison (its two
simulated cases, alongside the loaded sample EEG), generate analysis input
in-notebook. -/
theorem dataset_loading_amended :
    (∀ nb : Notebook,
      nb ≠ Notebook.coherencyComparison → loadsSampleDataset nb = true) ∧
    (∀ nb : Notebook, simulatesAnalysisInput nb = true ↔
      (nb = Notebook.coherencyComparison ∨ nb = Notebook.compareOverTimeTrials)) := by
  decide

/-- Witness for the amended C2 theorem at the VAR-model notebook. -/
theorem dataset_loading_amended_witness :
    Notebook.varModel ≠ Notebook.coherencyComparison ∧
    loadsSampleDataset Notebook.varModel = true :=
  ⟨by decide, dataset_loading_amended.1 Notebook.varModel (by decide)⟩

/-- C3: residuals are defined as the input data minus the model prediction,
so for every epoch, channel and time index the prediction plus the residual
equals the input data elementwise exactly. -/
theorem var_prediction_plus_residuals (data predicted : ℕ → ℕ → ℕ → ℚ)
    (e c t : ℕ) :
    predicted e c t + residuals data predicted e c t = data e c t := by
  unfold residuals
  ring

/-- C4: the one mne.Annotations construction in the event-parsing notebook
is built from onset, duration and description sequences of equal length
(onsets [5, 41], durations [16, 11], descriptions REM twice), so that each
stored element is a complete (onset, duration, description) triplet with a
duration present. -/
theorem rem_annot_complete_triplets :
    remOnset.length = remDuration.length ∧
    remDuration.length = remDescription.length ∧
    rem_annot = some [⟨5, 16, "REM"⟩, ⟨41, 11, "REM"⟩] := by
  decide

/-- C5: no notebook writes to the filesystem, and every filesystem path a
notebook consumes is obtained under a root produced by the external
library's dataset-download utilities. -/
theorem no_writes_all_paths_from_download :
    ∀ nb : Notebook, writesToFilesystem nb = false ∧
      (consumedPaths nb).all ConsumedPath.fromDownloadUtility = true := by
  decide

/-- C6: no notebook creates a thread or process itself; every
parallelism-related construct in the corpus is an n_jobs argument passed to
an external library call, with n_jobs=1 to spectral_connectivity_epochs in
the seed-based time-frequency connectivity notebook. -/
theorem parallelism_only_n_jobs :
    (∀ nb : Notebook,
      (parallelismConfigs nb).all ParallelismConfig.isNJobsArgument = true) ∧
    parallelismConfigs Notebook.seedTimeFrequency =
      [ParallelismConfig.nJobsArgument "spectral_connectivity_epochs" 1] := by
  decide

/-- C7 counterexample: bp_gen, defined in the envelope-correlation
notebook, is a band-pass filtering generator and not a plotting helper, so
the claim that the only functions defined in notebook code are plotting
helpers is false. -/
theorem not_only_plotting_helpers :
    NotebookFunction.bpGen.isPlottingHelper = false ∧
    ¬ onlyPlottingHelpersDefined := by
  decide

/-- C7 amended: no notebook defines a class, and every function defined in
notebook code is a plotting helper except bp_gen, a generator in the
envelope-correlation notebook that band-pass filters label time courses
through a library call before they are consumed by envelope_correlation. -/
theorem defined_functions_amended :
    (∀ nb : Notebook, classDefinitions nb = 0) ∧
    (∀ f : NotebookFunction,
      f.isPlottingHelper = true ∨ f = NotebookFunction.bpGen) ∧
    NotebookFunction.bpGen.definedIn = Notebook.envelopeCorrelation := by
  decide

/-- C8: with net_gc the difference of the library outputs for the forward
and reverse indices, exchanging indices_ab and indices_ba in both the gc
and gc_tr computations exactly negates net_gc, net_gc_tr, and the final
TRGC score trgc = net_gc - net_gc_tr, at every frequency. -/
theorem trgc_negated_by_swapping_indices (gcData gcTrData : Indices → ℕ → ℚ)
    (a b : List ℕ) (f : ℕ) :
    net_gc gcData (indices_ba a b) (indices_ab a b) f
        = -net_gc gcData (indices_ab a b) (indices_ba a b) f ∧
    net_gc gcTrData (indices_ba a b) (indices_ab a b) f
        = -net_gc gcTrData (indices_ab a b) (indices_ba a b) f ∧
    trgcScore gcData gcTrData (indices_ba a b) (indices_ab a b) f
        = -trgcScore gcData gcTrData (indices_ab a b) (indices_ba a b) f := by
  refine ⟨?_, ?_, ?_⟩ <;> simp only [net_gc, trgcScore] <;> ring

/-- C9: when the singular values s are in descending order with a strictly
positive first entry, the conservative rank estimate
rank = np.count_nonzero(s >= s[0] * 1e-4) equals the number of singular
values within a factor 1e-4 of the largest, and satisfies
1 <= rank <= number of channels. -/
theorem conservative_rank_bounds (s : List ℚ) (s₀ : ℚ) (nChannels : ℕ)
    (hhead : s.head? = some s₀) (hpos : 0 < s₀)
    (hmax : ∀ x ∈ s, x ≤ s₀) (hlen : s.length = nChannels) :
    rank s = (s.filter (fun x => s₀ * (1 / 10000) ≤ x)).length ∧
    1 ≤ rank s ∧ rank s ≤ nChannels := by
  cases s with
  | nil => exact absurd hhead (by simp)
  | cons a t =>
      have ha : a = s₀ := by simpa using hhead
      subst ha
      have hthr : a * (1 / 10000) ≤ a := by nlinarith
      refine ⟨rfl, ?_, ?_⟩
      · show 1 ≤ ((a :: t).filter (fun x => a * (1 / 10000) ≤ x)).length
        rw [List.filter_cons]
        simp only [decide_eq_true_eq]
        rw [if_pos hthr]
        simp
      · calc rank (a :: t) ≤ (a :: t).length := List.length_filter_le _ _
          _ = nChannels := hlen

/-- Witness for the conservative rank theorem at the singular values
[10, 5, 0]: the rank is 2 and lies between 1 and the channel count 3. -/
theorem conservative_rank_bounds_witness :
    ([10, 5, 0] : List ℚ).head? = some 10 ∧ (0 : ℚ) < 10 ∧
    (∀ x ∈ ([10, 5, 0] : List ℚ), x ≤ 10) ∧
    ([10, 5, 0] : List ℚ).length = 3 ∧
    rank [10, 5, 0] = 2 ∧
    (rank [10, 5, 0]
        = (([10, 5, 0] : List ℚ).filter (fun x => 10 * (1 / 10000) ≤ x)).length ∧
      1 ≤ rank [10, 5, 0] ∧ rank [10, 5, 0] ≤ 3) :=
  ⟨by decide, by decide, by decide, by decide, by norm_num [rank, List.filter],
    conservative_rank_bounds [10, 5, 0] 10 3 (by decide) (by decide)
      (by decide) (by decide)⟩

/-- C10: n_connections = (n_channels^2 - n_channels)/2 equals the number of
distinct unordered channel pairs (the binomial coefficient choose 2), and
when the raveled array has one per-connection time course per distinct
unordered pair, global_con_epochs is their arithmetic mean at every
timepoint. -/
theorem global_theta_connectivity_is_mean (raveled : List (ℕ → ℚ)) (nCh : ℕ)
    (hlen : raveled.length = nCh.choose 2) (t : ℕ) :
    n_connections nCh = (nCh.choose 2 : ℚ) ∧
    global_con_epochs raveled nCh t =
      (raveled.map (fun row => row t)).sum / (raveled.length : ℚ) := by
  have hconn : n_connections nCh = (nCh.choose 2 : ℚ) := by
    rw [Nat.cast_choose_two]
    unfold n_connections
    ring
  refine ⟨hconn, ?_⟩
  unfold global_con_epochs
  rw [hconn, hlen]

/-- Witness for the global connectivity mean theorem on three constant
time courses over 3 channels: choose 3 2 = 3 connections, and the global
value at time 0 is the mean 2. -/
theorem global_theta_connectivity_is_mean_witness :
    ([fun _ => (1 : ℚ), fun _ => 2, fun _ => 3] : List (ℕ → ℚ)).length
        = Nat.choose 3 2 ∧
    global_con_epochs [fun _ => (1 : ℚ), fun _ => 2, fun _ => 3] 3 0 = 2 ∧
    (n_connections 3 = (Nat.choose 3 2 : ℚ) ∧
      global_con_epochs [fun _ => (1 : ℚ), fun _ => 2, fun _ => 3] 3 0 =
        (([fun _ => (1 : ℚ), fun _ => 2, fun _ => 3] : List (ℕ → ℚ)).map
            (fun row => row 0)).sum /
          ((([fun _ => (1 : ℚ), fun _ => 2, fun _ => 3] : List (ℕ → ℚ)).length : ℕ) : ℚ)) :=
  ⟨by decide, by norm_num [global_con_epochs, n_connections],
    global_theta_connectivity_is_mean [fun _ => (1 : ℚ), fun _ => 2, fun _ => 3] 3
      (by decide) 0⟩

end Cognestic
